import Mathlib

set_option maxRecDepth 100000

/-!
Verification development for the paperbird repository: a shallow embedding
of the arXiv fetcher (src/arxiv_fetcher.py), the LLM-based paper inspector
(src/ai_inspector.py) and the FastAPI request handler (app.py), together
with theorems settling the stated behavioural properties.

Conventions of the embedding:
- Python exceptions are modelled with Except String; a function that the
  source guarantees cannot raise is total.
- Python datetimes are modelled by PyDateTime over the proleptic Gregorian
  calendar (the calendar datetime uses); timedelta subtraction goes through
  day ordinals.
- External I/O (the arXiv HTTP GET, the LLM chat-completion POST) is
  modelled by explicit environment parameters mapping a request to its
  outcome.
-/

namespace Paperbird

/-! ### Python-style string primitives -/

/-- Index of the first occurrence of character c in cs, or -1 when absent
(Python str.find). -/
def pyFindChar (cs : List Char) (c : Char) : Int :=
  match cs with
  | [] => -1
  | x :: xs =>
    if x = c then 0
    else
      let r := pyFindChar xs c
      if r < 0 then -1 else r + 1

/-- Index of the last occurrence of character c in cs, or -1 when absent
(Python str.rfind). -/
def pyRFindChar (cs : List Char) (c : Char) : Int :=
  match cs with
  | [] => -1
  | x :: xs =>
    let r := pyRFindChar xs c
    if r ≥ 0 then r + 1
    else if x = c then 0 else -1

/-- Python slice cs[a:b] for 0 ≤ a ≤ b (the only shape the sources use). -/
def pySlice (cs : List Char) (a b : Nat) : List Char :=
  (cs.take b).drop a

/-- Whether needle occurs as a contiguous substring of hay (Python in). -/
def substrIn (needle hay : String) : Bool :=
  go needle.data hay.data
where
  go (n : List Char) (h : List Char) : Bool :=
    if n.isPrefixOf h then true
    else
      match h with
      | [] => false
      | _ :: hs => go n hs

/-- Split a character list at every occurrence of separator c (Python
str.split with a one-character separator: empty pieces are kept and the
empty input yields one empty piece). -/
def splitOnChar (c : Char) : List Char → List (List Char)
  | [] => [[]]
  | x :: xs =>
    if x = c then [] :: splitOnChar c xs
    else
      match splitOnChar c xs with
      | r :: rs => (x :: r) :: rs
      | [] => [[x]]

/-- Split a character list at every occurrence of a nonempty separator
(Python str.split with a multi-character separator); fuel bounds the
recursion and is ample at the call sites. -/
def splitOnSub (fuel : Nat) (sep : List Char) (cs : List Char) : List (List Char) :=
  match fuel with
  | 0 => [cs]
  | f + 1 =>
    if sep.isPrefixOf cs ∧ ¬ sep.isEmpty then
      [] :: splitOnSub f sep (cs.drop sep.length)
    else
      match cs with
      | [] => [[]]
      | x :: xs =>
        match splitOnSub f sep xs with
        | r :: rs => (x :: r) :: rs
        | [] => [[x]]

/-- The whitespace-separated words of a character list, in order; cur
accumulates the current word reversed. -/
def wordsAux (cur : List Char) : List Char → List (List Char)
  | [] => if cur.isEmpty then [] else [cur.reverse]
  | c :: cs =>
    if c.isWhitespace then
      if cur.isEmpty then wordsAux [] cs else cur.reverse :: wordsAux [] cs
    else wordsAux (c :: cur) cs

/-- Python str.split() with no argument: split on runs of whitespace,
discarding empty pieces. -/
def pySplitWs (s : String) : List String :=
  (wordsAux [] s.data).map String.mk

/-- Python str.strip with no argument: remove leading and trailing
whitespace. -/
def pyStrip (s : String) : String :=
  String.mk (((s.data.dropWhile Char.isWhitespace).reverse.dropWhile
    Char.isWhitespace).reverse)

/-- Python ", ".join. -/
def joinComma : List String → String
  | [] => ""
  | [s] => s
  | s :: rest => s ++ ", " ++ joinComma rest

/-- All characters are ASCII decimal digits and the list is nonempty. -/
def allDigitsL (cs : List Char) : Bool :=
  ¬ cs.isEmpty && cs.all (fun c => c.isDigit)

/-- Numeric value of a list of decimal digits. -/
def digitsToNat (ds : List Char) : Nat :=
  ds.foldl (fun acc c => acc * 10 + (c.toNat - '0'.toNat)) 0

/-- The character for decimal digit n < 10. -/
def digitChar (n : Nat) : Char := Char.ofNat ('0'.toNat + n)

/-- Decimal digit characters of n, most significant first; fuel bounds the
recursion and is ample at the call sites. -/
def natDigits (fuel n : Nat) : List Char :=
  match fuel with
  | 0 => []
  | f + 1 =>
    if n < 10 then [digitChar n]
    else natDigits f (n / 10) ++ [digitChar (n % 10)]

/-- Decimal print of a natural number. -/
def natToStr (n : Nat) : String := String.mk (natDigits (n + 1) n)

/-! ### Proleptic Gregorian calendar (the calendar of Python datetime) -/

/-- Gregorian leap-year test. -/
def isLeap (y : Nat) : Bool :=
  y % 4 = 0 && (y % 100 ≠ 0 || y % 400 = 0)

/-- Number of days in month m of year y. -/
def daysInMonth (y m : Nat) : Nat :=
  if m = 2 then (if isLeap y then 29 else 28)
  else if m = 4 ∨ m = 6 ∨ m = 9 ∨ m = 11 then 30
  else 31

/-- Day ordinal (days since 0000-03-01) of a proleptic Gregorian date. -/
def ordOfYmd (y m d : Nat) : Nat :=
  let yy := if m ≤ 2 then y - 1 else y
  let era := yy / 400
  let yoe := yy % 400
  let mp := if m > 2 then m - 3 else m + 9
  let doy := (153 * mp + 2) / 5 + (d - 1)
  let doe := yoe * 365 + yoe / 4 - yoe / 100 + doy
  era * 146097 + doe

/-- Date (year, month, day) of a day ordinal, inverse of ordOfYmd. -/
def ymdOfOrd (z : Nat) : Nat × Nat × Nat :=
  let era := z / 146097
  let doe := z % 146097
  let yoe := (doe - doe / 1460 + doe / 36524 - doe / 146096) / 365
  let y0 := yoe + era * 400
  let doy := doe - (365 * yoe + yoe / 4 - yoe / 100)
  let mp := (5 * doy + 2) / 153
  let d := doy - (153 * mp + 2) / 5 + 1
  let m := if mp < 10 then mp + 3 else mp - 9
  (if m ≤ 2 then y0 + 1 else y0, m, d)

/-- Model of Python datetime.datetime (naive, second precision; the sources
never consult microseconds or time zones). -/
structure PyDateTime where
  year : Nat
  month : Nat
  day : Nat
  hour : Nat
  minute : Nat
  second : Nat
deriving Repr, DecidableEq

/-- Model of datetime - timedelta(days := n): calendar-correct day
subtraction, time of day unchanged. -/
def subDays (dt : PyDateTime) (n : Nat) : PyDateTime :=
  let (y, m, d) := ymdOfOrd (ordOfYmd dt.year dt.month dt.day - n)
  { dt with year := y, month := m, day := d }

/-- Model of dt.replace(day := 1). -/
def replaceDay1 (dt : PyDateTime) : PyDateTime := { dt with day := 1 }

/-- Model of dt.replace(month := 1, day := 1). -/
def replaceMonth1Day1 (dt : PyDateTime) : PyDateTime :=
  { dt with month := 1, day := 1 }

/-- Left-pad the decimal print of n with zeros to width w. -/
def padZero (w n : Nat) : String :=
  let s := natToStr n
  if s.length < w then String.mk (List.replicate (w - s.length) '0') ++ s else s

/-- Model of dt.strftime("%Y%m%d"). -/
def strftimeYmdCompact (dt : PyDateTime) : String :=
  padZero 4 dt.year ++ padZero 2 dt.month ++ padZero 2 dt.day

/-- Model of dt.strftime("%Y-%m-%d"). -/
def strftimeDate (dt : PyDateTime) : String :=
  padZero 4 dt.year ++ "-" ++ padZero 2 dt.month ++ "-" ++ padZero 2 dt.day

/-- Parse a zero-padded YYYY-MM-DD date with calendar validation, as the
datetime constructor enforces. -/
def parseDateYmd (cs : List Char) : Option (Nat × Nat × Nat) :=
  match splitOnChar '-' cs with
  | [ys, ms, ds] =>
    if allDigitsL ys ∧ ys.length = 4 ∧ allDigitsL ms ∧ ms.length = 2 ∧
        allDigitsL ds ∧ ds.length = 2 then
      let y := digitsToNat ys
      let m := digitsToNat ms
      let d := digitsToNat ds
      if 1 ≤ y ∧ 1 ≤ m ∧ m ≤ 12 ∧ 1 ≤ d ∧ d ≤ daysInMonth y m then some (y, m, d)
      else none
    else none
  | _ => none

/-- Model of datetime.fromisoformat on the documented input shape
YYYY-MM-DD (app.py declares start_date and end_date as ISO format date
strings of that form); any other string is a ValueError. -/
def fromisoformat (s : String) : Except String PyDateTime :=
  match parseDateYmd s.data with
  | some (y, m, d) =>
    .ok { year := y, month := m, day := d, hour := 0, minute := 0, second := 0 }
  | none => .error ("ValueError: Invalid isoformat string: " ++ s)

/-- Model of datetime.strptime(s, "%Y-%m-%dT%H:%M:%SZ"): the fixed
zero-padded arXiv timestamp shape; anything else is a ValueError. -/
def strptimeZ (s : String) : Except String PyDateTime :=
  match splitOnChar 'T' s.data with
  | [datePart, timePart] =>
    match parseDateYmd datePart with
    | none => .error ("ValueError: time data " ++ s ++ " does not match format")
    | some (y, m, d) =>
      match splitOnChar ':' timePart with
      | [hs, ms, rest] =>
        if allDigitsL hs ∧ hs.length = 2 ∧ allDigitsL ms ∧ ms.length = 2 ∧
            allDigitsL (rest.take 2) ∧ rest.length = 3 ∧ rest.drop 2 = ['Z'] then
          let h := digitsToNat hs
          let mi := digitsToNat ms
          let se := digitsToNat (rest.take 2)
          if h ≤ 23 ∧ mi ≤ 59 ∧ se ≤ 59 then
            .ok { year := y, month := m, day := d, hour := h, minute := mi, second := se }
          else .error ("ValueError: time data " ++ s ++ " does not match format")
        else .error ("ValueError: time data " ++ s ++ " does not match format")
      | _ => .error ("ValueError: time data " ++ s ++ " does not match format")
  | _ => .error ("ValueError: time data " ++ s ++ " does not match format")

/-! ### JSON values and a model of json.loads -/

/-- Model of a decoded Python JSON value (numbers restricted to integers;
none of the behaviours under study exercises fractional numbers). -/
inductive Json where
  | null
  | bool (b : Bool)
  | num (n : Int)
  | str (s : String)
  | arr (elems : List Json)
  | obj (fields : List (String × Json))
deriving Repr

/-- Python truthiness of a decoded JSON value. -/
def pyTruthy : Json → Bool
  | .null => false
  | .bool b => b
  | .num n => n ≠ 0
  | .str s => s ≠ ""
  | .arr l => ¬ l.isEmpty
  | .obj l => ¬ l.isEmpty

/-- Model of dict.get(k, d): default on a missing key, the last binding
wins on duplicates (as in json.loads), AttributeError on a non-dict. -/
def dictGet (j : Json) (k : String) (d : Json) : Except String Json :=
  match j with
  | .obj kvs =>
    .ok ((kvs.reverse.find? (fun kv => kv.fst == k)).map Prod.snd |>.getD d)
  | _ => .error "AttributeError: object has no attribute get"

/-- The left brace character. -/
def lbrace : Char := Char.ofNat 123

/-- The right brace character. -/
def rbrace : Char := Char.ofNat 125

/-- Skip JSON whitespace. -/
def skipWs : List Char → List Char
  | c :: cs => if c = ' ' ∨ c = '\t' ∨ c = '\n' ∨ c = '\r' then skipWs cs else c :: cs
  | [] => []

/-- Value of a hexadecimal digit, 16 when not one. -/
def hexVal (c : Char) : Nat :=
  if '0' ≤ c ∧ c ≤ '9' then c.toNat - '0'.toNat
  else if 'a' ≤ c ∧ c ≤ 'f' then c.toNat - 'a'.toNat + 10
  else if 'A' ≤ c ∧ c ≤ 'F' then c.toNat - 'A'.toNat + 10
  else 16

/-- Parse the body of a JSON string after the opening quote, returning the
decoded characters and the rest of the input. -/
def parseStrBody (fuel : Nat) (cs : List Char) : Except String (List Char × List Char) :=
  match fuel with
  | 0 => .error "ValueError: input too long"
  | f + 1 =>
    match cs with
    | [] => .error "ValueError: Unterminated string"
    | c :: rest =>
      if c = '"' then .ok ([], rest)
      else if c = '\\' then
        match rest with
        | [] => .error "ValueError: Unterminated string"
        | e :: rest2 =>
          let dec : Except String (Char × List Char) :=
            if e = 'n' then .ok ('\n', rest2)
            else if e = 't' then .ok ('\t', rest2)
            else if e = 'r' then .ok ('\r', rest2)
            else if e = 'b' then .ok ('\x08', rest2)
            else if e = 'f' then .ok ('\x0c', rest2)
            else if e = '"' then .ok ('"', rest2)
            else if e = '\\' then .ok ('\\', rest2)
            else if e = '/' then .ok ('/', rest2)
            else if e = 'u' then
              match rest2 with
              | h1 :: h2 :: h3 :: h4 :: rest3 =>
                if hexVal h1 < 16 ∧ hexVal h2 < 16 ∧ hexVal h3 < 16 ∧ hexVal h4 < 16 then
                  .ok (Char.ofNat
                    (((hexVal h1 * 16 + hexVal h2) * 16 + hexVal h3) * 16 + hexVal h4), rest3)
                else .error "ValueError: Invalid \\uXXXX escape"
              | _ => .error "ValueError: Invalid \\uXXXX escape"
            else .error "ValueError: Invalid \\escape"
          match dec with
          | .error m => .error m
          | .ok (d, rest3) =>
            match parseStrBody f rest3 with
            | .error m => .error m
            | .ok (tail, rest4) => .ok (d :: tail, rest4)
      else
        match parseStrBody f rest with
        | .error m => .error m
        | .ok (tail, rest2) => .ok (c :: tail, rest2)

/-- Leading run of decimal digits and the rest. -/
def takeDigits : List Char → List Char × List Char
  | [] => ([], [])
  | c :: cs =>
    if c.isDigit then
      let (ds, rest) := takeDigits cs
      (c :: ds, rest)
    else ([], c :: cs)

/-- What the recursive-descent JSON reader is currently reading: a value,
the members of an object after its opening brace, or the elements of an
array after its opening bracket; first marks that none has been read yet. -/
inductive PMode where
  | value
  | objFields (first : Bool)
  | arrElems (first : Bool)
deriving Repr, DecidableEq

/-- Recursive-descent JSON reader. In mode value it parses one JSON value
from the input (leading whitespace allowed); in the other two modes it
parses the remainder of an object or array and returns it as an obj or arr
value. Fuel bounds the recursion and is ample at the call site. -/
def parseCore (fuel : Nat) (mode : PMode) (cs : List Char) :
    Except String (Json × List Char) :=
  match fuel with
  | 0 => .error "ValueError: input too long"
  | f + 1 =>
    match mode with
    | .value =>
      match skipWs cs with
      | [] => .error "ValueError: Expecting value"
      | c :: rest =>
        if c = '"' then
          match parseStrBody f rest with
          | .error m => .error m
          | .ok (body, rest2) => .ok (.str (String.mk body), rest2)
        else if c = lbrace then parseCore f (.objFields true) (skipWs rest)
        else if c = '[' then parseCore f (.arrElems true) (skipWs rest)
        else if c = 't' then
          match rest with
          | 'r' :: 'u' :: 'e' :: rest2 => .ok (.bool true, rest2)
          | _ => .error "ValueError: Expecting value"
        else if c = 'f' then
          match rest with
          | 'a' :: 'l' :: 's' :: 'e' :: rest2 => .ok (.bool false, rest2)
          | _ => .error "ValueError: Expecting value"
        else if c = 'n' then
          match rest with
          | 'u' :: 'l' :: 'l' :: rest2 => .ok (.null, rest2)
          | _ => .error "ValueError: Expecting value"
        else if c = '-' then
          let (ds, rest2) := takeDigits rest
          if ds.isEmpty then .error "ValueError: Expecting value"
          else .ok (.num (-(digitsToNat ds : Int)), rest2)
        else if c.isDigit then
          let (ds, rest2) := takeDigits (c :: rest)
          .ok (.num (digitsToNat ds), rest2)
        else .error "ValueError: Expecting value"
    | .objFields first =>
      match cs with
      | [] => .error "ValueError: Expecting property name"
      | c :: rest =>
        if c = rbrace ∧ first then .ok (.obj [], rest)
        else if c = '"' then
          match parseStrBody f rest with
          | .error m => .error m
          | .ok (key, rest2) =>
            match skipWs rest2 with
            | ':' :: rest3 =>
              match parseCore f .value rest3 with
              | .error m => .error m
              | .ok (v, rest4) =>
                match skipWs rest4 with
                | ',' :: rest5 =>
                  match parseCore f (.objFields false) (skipWs rest5) with
                  | .ok (.obj kvs, rest6) =>
                    .ok (.obj ((String.mk key, v) :: kvs), rest6)
                  | .ok _ => .error "ValueError: Expecting property name"
                  | .error m => .error m
                | r :: rest5 =>
                  if r = rbrace then .ok (.obj [(String.mk key, v)], rest5)
                  else .error "ValueError: Expecting delimiter"
                | [] => .error "ValueError: Expecting delimiter"
            | _ => .error "ValueError: Expecting colon delimiter"
        else .error "ValueError: Expecting property name"
    | .arrElems first =>
      match cs with
      | [] => .error "ValueError: Expecting value"
      | c :: rest =>
        if c = ']' ∧ first then .ok (.arr [], rest)
        else
          match parseCore f .value (c :: rest) with
          | .error m => .error m
          | .ok (v, rest2) =>
            match skipWs rest2 with
            | ',' :: rest3 =>
              match parseCore f (.arrElems false) (skipWs rest3) with
              | .ok (.arr vs, rest4) => .ok (.arr (v :: vs), rest4)
              | .ok _ => .error "ValueError: Expecting value"
              | .error m => .error m
            | ']' :: rest3 => .ok (.arr [v], rest3)
            | _ => .error "ValueError: Expecting delimiter"

/-- Model of json.loads: parse one JSON value and require only whitespace
after it. -/
def json_loads (s : String) : Except String Json :=
  match parseCore (s.length * 2 + 8) .value s.data with
  | .error m => .error m
  | .ok (v, rest) =>
    if (skipWs rest).isEmpty then .ok v else .error "ValueError: Extra data"

/-! ### ArxivFetcher (src/arxiv_fetcher.py) -/

/-- An author object of a feedparser entry (only .name is consulted). -/
structure AuthorObj where
  name : String
deriving Repr, DecidableEq

/-- A tag object of a feedparser entry (entry.tags elements; only the
"term" key is consulted). -/
structure TagObj where
  term : String
deriving Repr, DecidableEq

/-- A link object of a feedparser entry (entry.links elements). -/
structure LinkObj where
  href : String
  rel : String
  type : String
deriving Repr, DecidableEq

/-- A parsed feed entry as feedparser presents it. The fields the source
reads unconditionally are plain; updated and tags, which the source guards
with membership tests before reading, are optional. -/
structure FeedEntry where
  title : String
  summary : String
  authors : List AuthorObj
  published : String
  updated : Option String
  link : String
  links : List LinkObj
  id : String
  tags : Option (List TagObj)
deriving Repr, DecidableEq

/-- The paper dictionary built by ArxivFetcher.fetch_papers. -/
structure Paper where
  title : String
  abstract : String
  authors : List String
  published : String
  updated : Option String
  link : String
  pdf_link : Option String
  arxiv_id : String
  categories : List String
deriving Repr, DecidableEq

/-- Outcome of the requests.get call against the arXiv API: either a raised
exception, or a response with a status code and (when parsed by feedparser,
which itself never raises) a list of entries. -/
inductive HttpOutcome where
  | exc (msg : String)
  | resp (status : Nat) (entries : List FeedEntry)
deriving Repr

/-- The query parameters fetch_papers sends (the params dict; the
urlencoded URL string itself carries no additional information). -/
structure QueryParams where
  search_query : String
  start : Nat
  max_results : Nat
  sortBy : String
  sortOrder : String
deriving Repr, DecidableEq

/-- Environment mapping a query to the outcome of the HTTP GET. -/
def HttpEnv : Type := QueryParams → HttpOutcome

/-- The ArxivFetcher configuration (its constructor fields). -/
structure ArxivFetcher where
  default_search_term : String
  default_category : String
  default_subcategory : String
  default_max_results : Nat
  default_sort_by : String
  default_sort_order : String
deriving Repr, DecidableEq

/-- An ArxivFetcher built with all constructor defaults, as app.py and
fetch_papers.py do. -/
def ArxivFetcher.default : ArxivFetcher :=
  { default_search_term := "all:quantum"
    default_category := "cs"
    default_subcategory := "cs.AI"
    default_max_results := 50
    default_sort_by := "submittedDate"
    default_sort_order := "descending" }

/-- The search term construction of fetch_papers (arxiv_fetcher.py:79-88):
start from the default term, replace it by the provided search_query when
that is truthy, and prepend "cat:<category> AND " when the resolved
category is truthy and "cat:" does not already occur in the term. -/
def build_search_term (f : ArxivFetcher) (search_query : String) (category : String) :
    String :=
  let search_term := if search_query ≠ "" then search_query else f.default_search_term
  if category ≠ "" ∧ ¬ substrIn "cat:" search_term then
    "cat:" ++ category ++ " AND " ++ search_term
  else search_term

/-- The params dict assembled by fetch_papers (arxiv_fetcher.py:71-96)
after resolving optional arguments against the instance defaults. -/
def fetch_papers_params (f : ArxivFetcher) (search_query : String)
    (category : Option String) (max_results : Option Nat)
    (sort_by sort_order : Option String) : QueryParams :=
  { search_query := build_search_term f search_query (category.getD f.default_category)
    start := 0
    max_results := max_results.getD f.default_max_results
    sortBy := sort_by.getD f.default_sort_by
    sortOrder := sort_order.getD f.default_sort_order }

/-- One feed entry turned into a paper dictionary (the loop body at
arxiv_fetcher.py:120-147). -/
def parse_entry (e : FeedEntry) : Paper :=
  { title := e.title
    abstract := e.summary
    authors := e.authors.map (fun a => a.name)
    published := e.published
    updated := e.updated
    link := e.link
    pdf_link :=
      (e.links.find? (fun l => l.rel == "alternate" && l.type == "application/pdf")).map
        (fun l => l.href)
    arxiv_id :=
      String.mk ((splitOnSub (e.id.length + 1) "/abs/".data e.id.data).getLastD [])
    categories :=
      match e.tags with
      | some ts => ts.map (fun t => t.term)
      | none => [] }

/-- ArxivFetcher.fetch_papers: build the query, perform the GET, return []
on a raised exception or a non-200 status, and otherwise map every feed
entry to a paper dictionary. -/
def ArxivFetcher.fetch_papers (http : HttpEnv) (f : ArxivFetcher)
    (search_query : String) (category : Option String) (max_results : Option Nat)
    (sort_by sort_order : Option String) : List Paper :=
  let params := fetch_papers_params f search_query category max_results sort_by sort_order
  match http params with
  | .exc _ => []
  | .resp status entries =>
    if status = 200 then entries.map parse_entry else []

/-- ArxivFetcher.fetch_latest_papers: resolve category and max_results
against the defaults and delegate to fetch_papers with no search query. -/
def ArxivFetcher.fetch_latest_papers (http : HttpEnv) (f : ArxivFetcher)
    (category : Option String) (max_results : Option Nat) : List Paper :=
  f.fetch_papers http "" (some (category.getD f.default_category))
    (some (max_results.getD f.default_max_results)) none none

/-- ArxivFetcher.fetch_papers_by_subcategory: query "cat:<subcategory>"
within the resolved category. -/
def ArxivFetcher.fetch_papers_by_subcategory (http : HttpEnv) (f : ArxivFetcher)
    (category subcategory : Option String) (max_results : Option Nat) : List Paper :=
  f.fetch_papers http ("cat:" ++ (subcategory.getD f.default_subcategory))
    (some (category.getD f.default_category))
    (some (max_results.getD f.default_max_results)) none none

/-- ArxivFetcher.search_papers: resolve category and max_results against
the defaults and delegate to fetch_papers with the given query. -/
def ArxivFetcher.search_papers (http : HttpEnv) (f : ArxivFetcher)
    (query : String) (category : Option String) (max_results : Option Nat) : List Paper :=
  f.fetch_papers http query (some (category.getD f.default_category))
    (some (max_results.getD f.default_max_results)) none none

/-! ### AIInspector (src/ai_inspector.py) -/

/-- Environment mapping an LLM prompt to the outcome of _call_llama_api:
either a raised exception (error) or the decoded JSON response body. -/
def LlamaEnv : Type := String → Except String Json

/-- The relevance-check prompt of AIInspector.check_relevance
(ai_inspector.py:88-106). Leading indentation of the Python triple-quoted
literal is reproduced; interpolated fields come from the paper dictionary
with empty-string defaults. -/
def relevance_prompt (paper : Paper) (user_prompt : String) : String :=
  "\n        You are an AI assistant helping to determine if an academic paper is relevant to a user\x27s interests.\n\n        USER\x27S INTERESTS:\n        "
    ++ user_prompt
    ++ "\n\n        PAPER INFORMATION:\n        Title: " ++ paper.title
    ++ "\n        Authors: " ++ joinComma paper.authors
    ++ "\n        Categories: " ++ joinComma paper.categories
    ++ "\n        Abstract: " ++ paper.abstract
    ++ "\n\n        Based on the user\x27s interests and the paper information, determine if this paper is relevant to the user.\n        Return your response as a JSON object with the following format:\n        \x7b\n            \"is_relevant\": true/false,\n            \"reason\": \"A brief explanation of why the paper is or is not relevant\"\n        \x7d\n        "

/-- The summarization prompt of AIInspector.generate_summary
(ai_inspector.py:154-168). -/
def summary_prompt (paper : Paper) (user_prompt : String) : String :=
  "\n        You are an AI assistant helping to summarize an academic paper based on a user\x27s interests.\n\n        USER\x27S INTERESTS:\n        "
    ++ user_prompt
    ++ "\n\n        PAPER INFORMATION:\n        Title: " ++ paper.title
    ++ "\n        Authors: " ++ joinComma paper.authors
    ++ "\n        Categories: " ++ joinComma paper.categories
    ++ "\n        Abstract: " ++ paper.abstract
    ++ "\n\n        Generate a concise summary (100-150 words) of this paper that highlights aspects most relevant to the user\x27s interests.\n        Focus on practical implications, potential applications, and how this research might impact the user\x27s work.\n        "

/-- The response-text extraction both LLM callers use:
response.get("completion_message", dict()).get("content", dict()).get("text", "").strip().
A non-dict along the chain or a non-string text value raises. -/
def extract_response_text (response : Json) : Except String String := do
  let cm ← dictGet response "completion_message" (Json.obj [])
  let content ← dictGet cm "content" (Json.obj [])
  let t ← dictGet content "text" (Json.str "")
  match t with
  | .str s => .ok (pyStrip s)
  | _ => .error "AttributeError: object has no attribute strip"

/-- The span test of check_relevance (ai_inspector.py:124): the first left
brace exists and the character after the last right brace lies strictly
beyond it. -/
def span_cond (response_text : String) : Prop :=
  pyFindChar response_text.data lbrace ≥ 0 ∧
    pyRFindChar response_text.data rbrace + 1 > pyFindChar response_text.data lbrace

instance (t : String) : Decidable (span_cond t) := by
  unfold span_cond
  exact inferInstance

/-- The slice response_text[start_idx:end_idx] of check_relevance
(ai_inspector.py:125). -/
def extracted_span (response_text : String) : String :=
  String.mk (pySlice response_text.data
    (pyFindChar response_text.data lbrace).toNat
    (pyRFindChar response_text.data rbrace + 1).toNat)

/-- The JSON-span extraction of check_relevance (ai_inspector.py:120-131)
applied to the stripped response text: locate the first left brace and the
last right brace, parse the enclosed slice when the span is nonempty, and
otherwise report failure as a normal (non-raising) not-relevant result.
Only json.loads (or a .get on its non-dict result) can raise here. -/
def relevance_from_text (response_text : String) : Except String (Json × Json) :=
  if span_cond response_text then
    match json_loads (extracted_span response_text) with
    | .error m => .error m
    | .ok result =>
      match dictGet result "is_relevant" (Json.bool false),
          dictGet result "reason" (Json.str "No reason provided") with
      | .ok r1, .ok r2 => .ok (r1, r2)
      | .error m, _ => .error m
      | _, .error m => .error m
  else
    .ok (Json.bool false, Json.str "Failed to parse response from AI model")

/-- AIInspector.check_relevance: call the LLM, extract the response text,
extract and decode the JSON span; any exception along the way is caught and
turned into a not-relevant result carrying the exception text. -/
def check_relevance (env : LlamaEnv) (paper : Paper) (user_prompt : String) :
    Json × Json :=
  match env (relevance_prompt paper user_prompt) with
  | .error e => (Json.bool false, Json.str ("Error processing relevance check: " ++ e))
  | .ok response =>
    match extract_response_text response with
    | .error e =>
      (Json.bool false, Json.str ("Error processing relevance check: " ++ e))
    | .ok text =>
      match relevance_from_text text with
      | .ok r => r
      | .error e =>
        (Json.bool false, Json.str ("Error processing relevance check: " ++ e))

/-- AIInspector.generate_summary: call the LLM and return the stripped
response text; any exception is caught and turned into an error string. -/
def generate_summary (env : LlamaEnv) (paper : Paper) (user_prompt : String) : String :=
  match env (summary_prompt paper user_prompt) with
  | .error e => "Error generating summary: " ++ e
  | .ok response =>
    match extract_response_text response with
    | .ok s => s
    | .error e => "Error generating summary: " ++ e

/-- Which of the two inspector operations ran, for counting calls. -/
inductive CallTag where
  | checkRelevance
  | generateSummary
deriving Repr, DecidableEq

/-- The analysis dictionary built by AIInspector.analyze_paper; summary is
some _ exactly when the "summary" key is present. -/
structure AnalysisResult where
  paper_id : String
  title : String
  is_relevant : Json
  relevance_reason : Json
  summary : Option String
deriving Repr

/-- AIInspector.analyze_paper: run the relevance check, and generate a
summary exactly when the returned is_relevant value is truthy. The second
component records which inspector operations ran, in order. -/
def analyze_paper (env : LlamaEnv) (paper : Paper) (user_prompt : String) :
    AnalysisResult × List CallTag :=
  let (is_relevant, reason) := check_relevance env paper user_prompt
  let result : AnalysisResult :=
    { paper_id := paper.arxiv_id
      title := paper.title
      is_relevant := is_relevant
      relevance_reason := reason
      summary := none }
  if pyTruthy is_relevant then
    ({ result with summary := some (generate_summary env paper user_prompt) },
      [CallTag.checkRelevance, CallTag.generateSummary])
  else
    (result, [CallTag.checkRelevance])

/-! ### FastAPI handler (app.py) -/

/-- The request model SearchPapersRequest (app.py:51-56). -/
structure SearchPapersRequest where
  prompt : String
  timeframe : String
  start_date : Option String
  end_date : Option String
  categories : Option (List String)
deriving Repr, DecidableEq

/-- The response model PaperResponse (app.py:59-71). -/
structure PaperResponse where
  id : String
  title : String
  authors : List String
  org : Option String
  date : String
  summary : String
  link : String
  status : String
  collected : Bool
  notes : Option String
deriving Repr, DecidableEq

/-- An HTTPException as the handler raises it: a status code and detail. -/
structure HTTPErrorResp where
  status_code : Nat
  detail : String
deriving Repr, DecidableEq

/-- Python truthiness of an optional string field (None and "" are falsy). -/
def truthyOptStr : Option String → Bool
  | some s => s ≠ ""
  | none => false

/-- The timeframe dispatch of the handler (app.py:92-109): fixed windows
for "7d", "30d", "mtd" and "ytd"; the parsed start_date and end_date for
"custom" when both are truthy; and the last 30 days otherwise. Only
datetime.fromisoformat can raise here. -/
def compute_date_range (now : PyDateTime) (req : SearchPapersRequest) :
    Except String (PyDateTime × PyDateTime) :=
  if req.timeframe = "7d" then .ok (subDays now 7, now)
  else if req.timeframe = "30d" then .ok (subDays now 30, now)
  else if req.timeframe = "mtd" then .ok (replaceDay1 now, now)
  else if req.timeframe = "ytd" then .ok (replaceMonth1Day1 now, now)
  else if req.timeframe = "custom" ∧ truthyOptStr req.start_date ∧
      truthyOptStr req.end_date then do
    let s ← fromisoformat (req.start_date.getD "")
    let e ← fromisoformat (req.end_date.getD "")
    .ok (s, e)
  else .ok (subDays now 30, now)

/-- The arXiv date query string built at app.py:112. -/
def date_query_of (start_date end_date : PyDateTime) : String :=
  "submittedDate:[" ++ strftimeYmdCompact start_date ++ "000000 TO "
    ++ strftimeYmdCompact end_date ++ "235959]"

/-- The category list resolution at app.py:115: the request categories when
truthy (present and nonempty), the default list otherwise. -/
def handler_categories (req : SearchPapersRequest) : List String :=
  match req.categories with
  | some l => if ¬ l.isEmpty then l else ["cs.AI", "cs.LG"]
  | none => ["cs.AI", "cs.LG"]

/-- Keyword parameter names accepted by ArxivFetcher.search_papers
(its signature at arxiv_fetcher.py:200-201). -/
def search_papers_accepted_kwargs : List String := ["query", "category", "max_results"]

/-- Keyword argument names the handler supplies at the call site
app.py:116-120. -/
def handler_fetch_call_kwargs : List String := ["query", "categories", "max_results"]

/-- First supplied keyword a callee signature does not accept, if any
(Python raises TypeError for it before the callee body runs). -/
def unexpected_kwarg (accepted supplied : List String) : Option String :=
  supplied.find? (fun k => ¬ accepted.contains k)

/-- The call arxiv_fetcher.search_papers(query=date_query,
categories=categories, max_results=50) at app.py:116-120 under Python
keyword-call semantics. The supplied keyword "categories" is not a
parameter of ArxivFetcher.search_papers, so the call raises TypeError
before any fetching happens; the ok branch is unreachable (no fetch result
is modelled there because in the source the callee never executes either —
passing the list for the callee's string parameter would not even be
well-typed). -/
def handler_fetch_step (date_query : String) (categories : List String) :
    Except String (List Paper) :=
  match unexpected_kwarg search_papers_accepted_kwargs handler_fetch_call_kwargs with
  | some k => .error ("search_papers() got an unexpected keyword argument " ++ k)
  | none => .ok []

/-- The organization guess of the handler loop (app.py:129-135): the last
whitespace-separated part of the first author name when that name has more
than one part. -/
def org_of (paper : Paper) : Option String :=
  if ¬ paper.authors.isEmpty then
    let author_parts := pySplitWs (paper.authors.headD "")
    if author_parts.length > 1 then some (author_parts.getLastD "") else none
  else none

/-- The analysis-and-formatting loop of the handler (app.py:122-154):
analyze each paper in order, keep exactly those whose is_relevant value is
truthy, and build a PaperResponse for each; re-parsing the published
timestamp can raise, which aborts the whole loop. -/
def process_papers (env : LlamaEnv) (user_prompt : String) :
    List Paper → Except String (List PaperResponse)
  | [] => .ok []
  | paper :: rest =>
    if pyTruthy (analyze_paper env paper user_prompt).1.is_relevant then
      match strptimeZ paper.published with
      | .error e => .error e
      | .ok d =>
        match process_papers env user_prompt rest with
        | .error e => .error e
        | .ok others =>
          .ok ({ id := paper.arxiv_id
                 title := paper.title
                 authors := paper.authors
                 org := org_of paper
                 date := strftimeDate d
                 summary := (analyze_paper env paper user_prompt).1.summary.getD ""
                 link := paper.link
                 status := "new"
                 collected := false
                 notes := none } :: others)
    else process_papers env user_prompt rest

/-- The body of the search_papers handler (the try block, app.py:91-154):
compute the date range, build the date query and category list, perform the
fetch call, and process the fetched papers. -/
def search_papers_body (env : LlamaEnv) (now : PyDateTime)
    (req : SearchPapersRequest) : Except String (List PaperResponse) :=
  match compute_date_range now req with
  | .error e => .error e
  | .ok (start_date, end_date) =>
    match handler_fetch_step (date_query_of start_date end_date)
        (handler_categories req) with
    | .error e => .error e
    | .ok papers => process_papers env req.prompt papers

/-- The search_papers handler (app.py:81-157): the body with its uniform
exception-to-HTTP-500 wrapper. -/
def search_papers_handler (env : LlamaEnv) (now : PyDateTime)
    (req : SearchPapersRequest) : Except HTTPErrorResp (List PaperResponse) :=
  match search_papers_body env now req with
  | .ok v => .ok v
  | .error e => .error { status_code := 500, detail := "Error searching papers: " ++ e }

/-- Decidable equality for Except, used to evaluate the embedded functions
at concrete inputs. -/
instance {ε : Type u} {α : Type v} [DecidableEq ε] [DecidableEq α] :
    DecidableEq (Except ε α) := fun a b =>
  match a, b with
  | .error x, .error y =>
    if h : x = y then isTrue (by rw [h])
    else isFalse (fun hc => h (Except.error.inj hc))
  | .error _, .ok _ => isFalse (fun hc => Except.noConfusion hc)
  | .ok _, .error _ => isFalse (fun hc => Except.noConfusion hc)
  | .ok x, .ok y =>
    if h : x = y then isTrue (by rw [h])
    else isFalse (fun hc => h (Except.ok.inj hc))

/-! ### Sample inputs used by concrete evaluations -/

/-- A concrete clock reading. -/
def sampleNow : PyDateTime :=
  { year := 2025, month := 3, day := 15, hour := 10, minute := 30, second := 0 }

/-- A concrete request with the categories field absent. -/
def sampleReqNoCats : SearchPapersRequest :=
  { prompt := "LLMs", timeframe := "7d", start_date := none, end_date := none,
    categories := none }

/-- A concrete custom-timeframe request with explicit dates. -/
def sampleReqCustom : SearchPapersRequest :=
  { prompt := "LLMs", timeframe := "custom", start_date := some "2024-01-02",
    end_date := some "2024-02-03", categories := none }

/-- An LLM environment whose decoded response text is a fixed string. -/
def constTextEnv (t : String) : LlamaEnv := fun _ =>
  .ok (Json.obj [("completion_message",
    Json.obj [("content", Json.obj [("text", Json.str t)])])])

/-- A concrete paper dictionary. -/
def samplePaper : Paper :=
  { title := "Quantum Widgets", abstract := "We study widgets.",
    authors := ["Jane Q Smith"], published := "2023-01-15T12:00:00Z",
    updated := none, link := "http://arxiv.org/abs/2301.12345v1",
    pdf_link := none, arxiv_id := "2301.12345v1", categories := ["cs.AI"] }

/-- An arXiv HTTP environment that always raises. -/
def excEnv : HttpEnv := fun _ => .exc "ConnectionError"

/-- An arXiv HTTP environment that always answers 500 with no entries. -/
def status500Env : HttpEnv := fun _ => .resp 500 []

/-- A concrete feed entry lacking both optional fields. -/
def sampleEntry : FeedEntry :=
  { title := "Quantum Widgets", summary := "We study widgets.",
    authors := [⟨"Jane Q Smith"⟩], published := "2023-01-15T12:00:00Z",
    updated := none, link := "http://arxiv.org/abs/2301.12345v1", links := [],
    id := "http://arxiv.org/abs/2301.12345v1", tags := none }

/-- The decoded response text that classifies a paper as relevant. -/
def relevantText : String := "\x7b\"is_relevant\": true, \"reason\": \"ok\"\x7d"

/-- The decoded response text that classifies a paper as not relevant. -/
def irrelevantText : String := "\x7b\"is_relevant\": false, \"reason\": \"no\"\x7d"

/-- An LLM environment that answers relevant exactly for prompts mentioning
Alpha. -/
def selectiveEnv : LlamaEnv := fun prompt =>
  if substrIn "Alpha" prompt then
    .ok (Json.obj [("completion_message",
      Json.obj [("content", Json.obj [("text", Json.str relevantText)])])])
  else
    .ok (Json.obj [("completion_message",
      Json.obj [("content", Json.obj [("text", Json.str irrelevantText)])])])

/-- A concrete paper titled Alpha. -/
def paperAlpha : Paper :=
  { title := "Alpha", abstract := "On alpha.", authors := ["Jane Q Smith"],
    published := "2023-01-15T12:00:00Z", updated := none,
    link := "http://arxiv.org/abs/2301.00001v1", pdf_link := none,
    arxiv_id := "2301.00001v1", categories := ["cs.AI"] }

/-- A concrete paper titled Beta. -/
def paperBeta : Paper :=
  { title := "Beta", abstract := "On beta.", authors := ["Bob"],
    published := "2023-02-20T08:05:09Z", updated := none,
    link := "http://arxiv.org/abs/2302.00002v1", pdf_link := none,
    arxiv_id := "2302.00002v1", categories := ["cs.LG"] }

/-- The response record the handler builds for paperAlpha under
selectiveEnv. -/
def alphaResponse : PaperResponse :=
  { id := "2301.00001v1", title := "Alpha", authors := ["Jane Q Smith"],
    org := some "Smith", date := "2023-01-15", summary := relevantText,
    link := "http://arxiv.org/abs/2301.00001v1", status := "new",
    collected := false, notes := none }

/-- A paper whose published field is missing, so the source's
paper.get("published", "") defaults it to the empty string. -/
def paperNoDate : Paper :=
  { title := "Gamma", abstract := "On gamma.", authors := ["Ann Lee"],
    published := "", updated := none,
    link := "http://arxiv.org/abs/2303.00003v1", pdf_link := none,
    arxiv_id := "2303.00003v1", categories := ["cs.AI"] }

/-! ### Claims -/

/-- C1: the claim says that with an absent or empty categories field the
search is performed with the default list ["cs.AI", "cs.LG"] and the
request succeeds like one with explicit categories. The handler does
resolve that default (first conjunct), but the fetch call itself passes the
keyword categories to ArxivFetcher.search_papers, whose signature only
accepts category, so Python raises TypeError and every request — with or
without categories — is answered with HTTP 500 and the exception text; no
search is ever performed (second and third conjuncts evaluate the handler
at a concrete request with categories absent and at one with explicit
categories). -/
theorem C1_default_categories_fetch_raises :
    handler_categories sampleReqNoCats = ["cs.AI", "cs.LG"] ∧
    search_papers_handler (constTextEnv "irrelevant") sampleNow sampleReqNoCats =
      .error ⟨500, "Error searching papers: search_papers() got an unexpected keyword argument categories"⟩ ∧
    search_papers_handler (constTextEnv "irrelevant") sampleNow
        { sampleReqNoCats with categories := some ["cs.CL"] } =
      .error ⟨500, "Error searching papers: search_papers() got an unexpected keyword argument categories"⟩ := by
  refine ⟨rfl, rfl, rfl⟩

/-- C2: the timeframe code determines the queried date window as
documented: "7d" is the last 7 days ending now, "30d" the last 30 days,
"mtd" starts at the first day of the current month, "ytd" at January 1 of
the current year, "custom" with both dates present uses exactly the parsed
dates, and any timeframe outside the five documented codes falls back to
the last 30 days. -/
theorem C2_timeframe_windows (now : PyDateTime) (req : SearchPapersRequest) :
    (req.timeframe = "7d" → compute_date_range now req = .ok (subDays now 7, now)) ∧
    (req.timeframe = "30d" → compute_date_range now req = .ok (subDays now 30, now)) ∧
    (req.timeframe = "mtd" → compute_date_range now req = .ok (replaceDay1 now, now)) ∧
    (req.timeframe = "ytd" →
      compute_date_range now req = .ok (replaceMonth1Day1 now, now)) ∧
    (∀ s e ds de, req.timeframe = "custom" → req.start_date = some s →
      req.end_date = some e → fromisoformat s = .ok ds → fromisoformat e = .ok de →
      compute_date_range now req = .ok (ds, de)) ∧
    (req.timeframe ∉ (["7d", "30d", "mtd", "ytd", "custom"] : List String) →
      compute_date_range now req = .ok (subDays now 30, now)) := by
  refine ⟨?_, ?_, ?_, ?_, ?_, ?_⟩
  · intro h
    simp [compute_date_range, h]
  · intro h
    simp [compute_date_range, h]
  · intro h
    simp [compute_date_range, h]
  · intro h
    simp [compute_date_range, h]
  · intro s e ds de h hs he hps hpe
    have hsne : s ≠ "" := by
      intro h0
      rw [h0] at hps
      have hemp : fromisoformat "" = Except.error "ValueError: Invalid isoformat string: " := rfl
      rw [hemp] at hps
      exact Except.noConfusion hps
    have hene : e ≠ "" := by
      intro h0
      rw [h0] at hpe
      have hemp : fromisoformat "" = Except.error "ValueError: Invalid isoformat string: " := rfl
      rw [hemp] at hpe
      exact Except.noConfusion hpe
    simp [compute_date_range, h, hs, he, truthyOptStr, hsne, hene, hps, hpe,
      Except.bind, Except.pure]
    rfl
  · intro h
    simp only [List.mem_cons, List.mem_singleton, not_or] at h
    obtain ⟨h1, h2, h3, h4, h5⟩ := h
    simp [compute_date_range, h1, h2, h3, h4, h5]

/-- Witness for C2 at a concrete clock and concrete requests for each
timeframe code. -/
theorem C2_timeframe_windows_witness :
    compute_date_range sampleNow sampleReqNoCats = .ok (subDays sampleNow 7, sampleNow) ∧
    compute_date_range sampleNow { sampleReqNoCats with timeframe := "30d" } =
      .ok (subDays sampleNow 30, sampleNow) ∧
    compute_date_range sampleNow { sampleReqNoCats with timeframe := "mtd" } =
      .ok (replaceDay1 sampleNow, sampleNow) ∧
    compute_date_range sampleNow { sampleReqNoCats with timeframe := "ytd" } =
      .ok (replaceMonth1Day1 sampleNow, sampleNow) ∧
    compute_date_range sampleNow sampleReqCustom =
      .ok (⟨2024, 1, 2, 0, 0, 0⟩, ⟨2024, 2, 3, 0, 0, 0⟩) ∧
    compute_date_range sampleNow { sampleReqNoCats with timeframe := "yesterday" } =
      .ok (subDays sampleNow 30, sampleNow) := by
  refine ⟨(C2_timeframe_windows sampleNow sampleReqNoCats).1 rfl,
    (C2_timeframe_windows sampleNow _).2.1 rfl,
    (C2_timeframe_windows sampleNow _).2.2.1 rfl,
    (C2_timeframe_windows sampleNow _).2.2.2.1 rfl,
    (C2_timeframe_windows sampleNow sampleReqCustom).2.2.2.2.1 "2024-01-02" "2024-02-03"
      ⟨2024, 1, 2, 0, 0, 0⟩ ⟨2024, 2, 3, 0, 0, 0⟩ rfl rfl rfl (by decide) (by decide),
    (C2_timeframe_windows sampleNow _).2.2.2.2.2 (by decide)⟩

/-- C3: whenever the LLM call succeeds and text extraction yields a
response text that either contains no JSON span (no left brace at all, or
no right brace after the first left brace — exactly the failure of the
source's span test) or whose extracted span json.loads rejects,
check_relevance returns is_relevant = false together with a fallback reason
string; being a total function, it raises nothing. -/
theorem C3_parse_failure_is_not_relevant (env : LlamaEnv) (paper : Paper)
    (up : String) (response : Json) (t : String)
    (hapi : env (relevance_prompt paper up) = .ok response)
    (htext : extract_response_text response = .ok t)
    (hbad : ¬ span_cond t ∨ ∃ m, json_loads (extracted_span t) = .error m) :
    (check_relevance env paper up).1 = Json.bool false ∧
    ∃ msg, (check_relevance env paper up).2 = Json.str msg := by
  have hcr : ∀ r, relevance_from_text t = r →
      check_relevance env paper up =
        (match r with
         | .ok v => v
         | .error e =>
           (Json.bool false, Json.str ("Error processing relevance check: " ++ e))) := by
    intro r hr
    unfold check_relevance
    rw [hapi]
    simp only [htext, hr]
  by_cases hsp : span_cond t
  · rcases hbad with hb | ⟨m, hm⟩
    · exact absurd hsp hb
    · have hr : relevance_from_text t = .error m := by
        unfold relevance_from_text
        rw [if_pos hsp, hm]
      rw [hcr _ hr]
      exact ⟨rfl, "Error processing relevance check: " ++ m, rfl⟩
  · have hr : relevance_from_text t =
        .ok (Json.bool false, Json.str "Failed to parse response from AI model") := by
      unfold relevance_from_text
      rw [if_neg hsp]
    rw [hcr _ hr]
    exact ⟨rfl, "Failed to parse response from AI model", rfl⟩

/-- Witness for C3: a response whose text has no brace span at all, and one
whose span is not valid JSON, both classified not relevant with a string
reason. -/
theorem C3_parse_failure_is_not_relevant_witness :
    ((check_relevance (constTextEnv "no json here") samplePaper "p").1 = Json.bool false ∧
      ∃ msg, (check_relevance (constTextEnv "no json here") samplePaper "p").2 = Json.str msg) ∧
    ((check_relevance (constTextEnv "\x7bnot valid json\x7d") samplePaper "p").1 = Json.bool false ∧
      ∃ msg, (check_relevance (constTextEnv "\x7bnot valid json\x7d") samplePaper "p").2 = Json.str msg) := by
  constructor
  · exact C3_parse_failure_is_not_relevant (constTextEnv "no json here") samplePaper "p"
      _ "no json here" rfl rfl (Or.inl (by decide))
  · exact C3_parse_failure_is_not_relevant (constTextEnv "\x7bnot valid json\x7d")
      samplePaper "p" _ "\x7bnot valid json\x7d" rfl rfl
      (Or.inr ⟨"ValueError: Expecting property name", rfl⟩)

/-- C4: analyze_paper runs generate_summary exactly once when
check_relevance classified the paper as relevant (truthy is_relevant) and
zero times otherwise, and the analysis dictionary carries a "summary" key
if and only if the paper was classified relevant. -/
theorem C4_summary_exactly_when_relevant (env : LlamaEnv) (paper : Paper)
    (up : String) :
    (analyze_paper env paper up).2.count CallTag.generateSummary =
      (if pyTruthy (check_relevance env paper up).1 then 1 else 0) ∧
    ((analyze_paper env paper up).1.summary.isSome ↔
      pyTruthy (check_relevance env paper up).1 = true) := by
  unfold analyze_paper
  cases hc : check_relevance env paper up with
  | mk isr rsn =>
    by_cases h : pyTruthy isr = true
    · simp [h]
    · have h2 : pyTruthy isr = false := by
        cases hb : pyTruthy isr
        · rfl
        · exact absurd hb h
      simp [h2]

/-- C5: when the HTTP GET against the arXiv API raises, or returns a
non-200 status, fetch_papers returns the empty list rather than
propagating the failure (the embedded function is total). -/
theorem C5_fetch_failure_gives_empty_list (http : HttpEnv) (f : ArxivFetcher)
    (sq : String) (cat : Option String) (mr : Option Nat) (sb so : Option String) :
    (∀ msg, http (fetch_papers_params f sq cat mr sb so) = .exc msg →
      f.fetch_papers http sq cat mr sb so = []) ∧
    (∀ status entries,
      http (fetch_papers_params f sq cat mr sb so) = .resp status entries →
      status ≠ 200 → f.fetch_papers http sq cat mr sb so = []) := by
  constructor
  · intro msg h
    simp only [ArxivFetcher.fetch_papers, h]
  · intro status entries h hne
    simp only [ArxivFetcher.fetch_papers, h]
    simp [hne]

/-- Witness for C5: a raised exception and a 500 status both produce zero
results from a concrete fetch. -/
theorem C5_fetch_failure_gives_empty_list_witness :
    ArxivFetcher.default.fetch_papers excEnv "all:ai" none none none none = [] ∧
    ArxivFetcher.default.fetch_papers status500Env "all:ai" none none none none = [] :=
  ⟨(C5_fetch_failure_gives_empty_list excEnv ArxivFetcher.default "all:ai"
      none none none none).1 "ConnectionError" rfl,
   (C5_fetch_failure_gives_empty_list status500Env ArxivFetcher.default "all:ai"
      none none none none).2 500 [] rfl (by decide)⟩

/-- C6: the handler either succeeds, or fails as HTTP 500 whose detail is
the fixed prefix followed by the raised exception's text; no other error
shape escapes search_papers. -/
theorem C6_all_failures_become_500 (env : LlamaEnv) (now : PyDateTime)
    (req : SearchPapersRequest) :
    (∃ v, search_papers_handler env now req = .ok v) ∨
    (∃ msg, search_papers_body env now req = .error msg ∧
      search_papers_handler env now req =
        .error ⟨500, "Error searching papers: " ++ msg⟩) := by
  unfold search_papers_handler
  cases h : search_papers_body env now req with
  | ok v => exact .inl ⟨v, rfl⟩
  | error e => exact .inr ⟨e, rfl, rfl⟩

/-- C7: a feed entry missing the optional update timestamp still parses,
with the paper's updated field None; one missing the tags list still
parses, with an empty category list. parse_entry is total, so parsing of
one entry never crashes on these missing fields. -/
theorem C7_missing_optional_fields_parse (e : FeedEntry) :
    (e.updated = none → (parse_entry e).updated = none) ∧
    (e.tags = none → (parse_entry e).categories = []) := by
  constructor
  · intro h
    simp [parse_entry, h]
  · intro h
    simp [parse_entry, h]

/-- Witness for C7 at a concrete entry lacking both optional fields. -/
theorem C7_missing_optional_fields_parse_witness :
    (parse_entry sampleEntry).updated = none ∧
    (parse_entry sampleEntry).categories = [] :=
  ⟨(C7_missing_optional_fields_parse sampleEntry).1 rfl,
   (C7_missing_optional_fields_parse sampleEntry).2 rfl⟩

/-- C8: when the processing loop succeeds, its response contains exactly
the papers classified relevant (in order, witnessed by the id column
matching the arxiv ids of the relevant papers, with the not-relevant ones
excluded), and every record carries status "new", collected false and
notes null; the remaining documented fields are present by the shape of
PaperResponse. -/
theorem C8_success_response_shape (env : LlamaEnv) (up : String)
    (papers : List Paper) (resp : List PaperResponse)
    (h : process_papers env up papers = .ok resp) :
    (∀ r ∈ resp, r.status = "new" ∧ r.collected = false ∧ r.notes = none) ∧
    resp.map (fun r => r.id) =
      (papers.filter
        (fun p => pyTruthy (analyze_paper env p up).1.is_relevant)).map
        (fun p => p.arxiv_id) := by
  induction papers generalizing resp with
  | nil =>
    unfold process_papers at h
    simp only [Except.ok.injEq] at h
    subst h
    simp
  | cons p rest ih =>
    unfold process_papers at h
    cases hrel : pyTruthy (analyze_paper env p up).1.is_relevant with
    | false =>
      rw [hrel] at h
      rw [if_neg Bool.false_ne_true] at h
      obtain ⟨ih1, ih2⟩ := ih resp h
      refine ⟨ih1, ?_⟩
      simp [List.filter_cons, hrel, ih2]
    | true =>
      rw [hrel] at h
      rw [if_pos rfl] at h
      cases hd : strptimeZ p.published with
      | error m =>
        simp only [hd] at h
        simp at h
      | ok d =>
        simp only [hd] at h
        cases hrest : process_papers env up rest with
        | error m =>
          simp only [hrest] at h
          simp at h
        | ok others =>
          simp only [hrest, Except.ok.injEq] at h
          subst h
          obtain ⟨ih1, ih2⟩ := ih others hrest
          constructor
          · intro r hr
            rcases List.mem_cons.mp hr with h1 | h2
            · subst h1
              exact ⟨rfl, rfl, rfl⟩
            · exact ih1 r h2
          · simp [List.filter_cons, hrel, ih2]

/-- Witness for C8: of two concrete papers with only Alpha classified
relevant, the successful loop returns exactly the Alpha record. -/
theorem C8_success_response_shape_witness :
    (∀ r ∈ [alphaResponse], r.status = "new" ∧ r.collected = false ∧ r.notes = none) ∧
    [alphaResponse].map (fun r => r.id) =
      ([paperAlpha, paperBeta].filter
        (fun p => pyTruthy (analyze_paper selectiveEnv p "interest").1.is_relevant)).map
        (fun p => p.arxiv_id) :=
  C8_success_response_shape selectiveEnv "interest" [paperAlpha, paperBeta]
    [alphaResponse] (by rfl)

/-- C9: with an empty search query, fetch_papers builds the arXiv query
from the hardcoded default term all:quantum, prefixed with the category
clause whenever the resolved category is nonempty (the default term never
contains "cat:"), so a default fetch — in particular fetch_latest_papers,
which resolves its arguments against the constructor defaults and passes an
empty query — always searches cat:cs AND all:quantum. -/
theorem C9_empty_query_restricted_to_quantum :
    (∀ c : String, c ≠ "" →
      build_search_term ArxivFetcher.default "" c = "cat:" ++ c ++ " AND all:quantum") ∧
    (fetch_papers_params ArxivFetcher.default "" (some "cs") (some 50)
      none none).search_query = "cat:cs AND all:quantum" ∧
    (∀ http : HttpEnv, ArxivFetcher.default.fetch_latest_papers http none none =
      ArxivFetcher.default.fetch_papers http "" (some "cs") (some 50) none none) := by
  refine ⟨?_, by decide, fun http => rfl⟩
  intro c hc
  unfold build_search_term ArxivFetcher.default
  simp [hc, show substrIn "cat:" "all:quantum" = false from by decide]
  rw [String.append_assoc]
  rfl

/-- Witness for C9 at the default category value. -/
theorem C9_empty_query_restricted_to_quantum_witness :
    build_search_term ArxivFetcher.default "" "cs" = "cat:" ++ "cs" ++ " AND all:quantum" :=
  C9_empty_query_restricted_to_quantum.1 "cs" (by decide)

/-- C10: if any paper classified relevant has a published value the
re-parse rejects (in particular an absent value defaulted to the empty
string), the whole processing loop raises — no response list is produced at
all, so papers already processed earlier in the loop are discarded along
with the rest, and by C6 the handler turns the raised error into HTTP
500. -/
theorem C10_bad_published_aborts_loop (env : LlamaEnv) (up : String)
    (papers : List Paper) (p : Paper) (hp : p ∈ papers)
    (hrel : pyTruthy (analyze_paper env p up).1.is_relevant = true)
    (hbad : ∀ d, strptimeZ p.published ≠ .ok d) :
    (∃ e, process_papers env up papers = .error e) ∧
    ∀ l, process_papers env up papers ≠ .ok l := by
  have main : ∀ (ps : List Paper), p ∈ ps →
      ∃ e, process_papers env up ps = .error e := by
    intro ps
    induction ps with
    | nil =>
      intro hp0
      cases hp0
    | cons q rest ih =>
      intro hp0
      unfold process_papers
      cases hq : pyTruthy (analyze_paper env q up).1.is_relevant with
      | true =>
        simp only [hq, if_pos rfl]
        cases hd : strptimeZ q.published with
        | error m => exact ⟨m, by simp⟩
        | ok d =>
          rcases List.mem_cons.mp hp0 with hqp | hmem
          · exact absurd (hqp ▸ hd) (hbad d)
          · obtain ⟨e, he⟩ := ih hmem
            exact ⟨e, by simp [he]⟩
      | false =>
        rw [if_neg Bool.false_ne_true]
        rcases List.mem_cons.mp hp0 with hqp | hmem
        · rw [← hqp] at hq
          rw [hrel] at hq
          exact Bool.noConfusion hq
        · exact ih hmem
  obtain ⟨e, he⟩ := main papers hp
  refine ⟨⟨e, he⟩, ?_⟩
  intro l hl
  rw [he] at hl
  exact Except.noConfusion hl

/-- Witness for C10: a relevant paper with an empty published value makes
the whole loop fail even though another relevant paper precedes it. -/
theorem C10_bad_published_aborts_loop_witness :
    (∃ e, process_papers (constTextEnv relevantText) "interest"
      [paperAlpha, paperNoDate] = .error e) ∧
    ∀ l, process_papers (constTextEnv relevantText) "interest"
      [paperAlpha, paperNoDate] ≠ .ok l :=
  C10_bad_published_aborts_loop (constTextEnv relevantText) "interest"
    [paperAlpha, paperNoDate] paperNoDate (by simp)
    (by decide)
    (fun d hd => by
      rw [show strptimeZ paperNoDate.published =
        Except.error "ValueError: time data  does not match format" from rfl] at hd
      exact Except.noConfusion hd)

end Paperbird
